import Mathlib

/-!
Shallow embedding of the Walmart-Test receipt backend
(`src/server/storage.ts`, `src/shared/schema.ts`, `src/unnamed/part_000`).

The storage layer keeps three in-memory ordered sequences (users, receipts,
receipt items).  Route handlers validate JSON bodies against Zod schemas and
call the storage functions.  We model:

* JavaScript numbers produced by `parseInt(nanoid())` as `Option Int`:
  `none` stands for `NaN` (the parse frequently fails since a nanoid need
  not begin with digits), `some n` for an actual number.  `===` between
  such numbers is `jsEq` below (`NaN === x` is always false).
* Timestamps (`new Date()`) as `Nat` values supplied by the caller.
* Request bodies as a JSON-like value type `JsVal` (with a `date`
  constructor for `Date` objects, which `z.date()` accepts).
* Each route handler as a pure function from its inputs and the store to a
  `(Resp × Store)` pair.
-/

namespace WalmartTest

/-- A JavaScript number that may be `NaN` (`none`). -/
abbrev JsNum := Option Int

/-- JavaScript `===` on numbers: `NaN` is equal to nothing, not even itself. -/
def jsEq (a b : JsNum) : Bool :=
  match a, b with
  | some x, some y => x == y
  | _, _ => false

/-- JSON-ish runtime value for request bodies (`date` models a `Date` object). -/
inductive JsVal where
  | null
  | bool (b : Bool)
  | num (n : Int)
  | str (s : String)
  | date (t : Nat)
  | arr (elems : List JsVal)
  | obj (fields : List (String × JsVal))

/-- `User` record (`UserSchema` in `src/unnamed/part_000`); the stored `id`
comes from `parseInt(nanoid())` and may be `NaN`. -/
structure User where
  id : JsNum
  name : String
  email : String
  createdAt : Nat
  updatedAt : Nat
deriving DecidableEq, Repr

/-- `Receipt` record (`ReceiptSchema`): `userId` is nullable (`none` = `null`). -/
structure Receipt where
  id : JsNum
  userId : Option Int
  storeName : String
  date : Nat
  total : Int
  createdAt : Nat
  updatedAt : Nat
deriving DecidableEq, Repr

/-- `ReceiptItem` record (`ReceiptItemSchema`); `receiptId` always passed
`z.number()` (which rejects `NaN`), hence a plain `Int`. -/
structure ReceiptItem where
  id : JsNum
  receiptId : Int
  name : String
  price : Int
  quantity : Int
  createdAt : Nat
  updatedAt : Nat
deriving DecidableEq, Repr

/-- The in-memory store: the module-level arrays `_users`, `_receipts`,
`_receiptItems` of `src/server/storage.ts`. -/
structure Store where
  users : List User
  receipts : List Receipt
  receiptItems : List ReceiptItem
deriving DecidableEq, Repr

/-- Payload accepted by `UserSchema.omit({id, createdAt, updatedAt})`. -/
structure UserPayload where
  name : String
  email : String
deriving DecidableEq, Repr

/-- Payload accepted by `ReceiptSchema.omit({id, createdAt, updatedAt})`. -/
structure ReceiptPayload where
  userId : Option Int
  storeName : String
  date : Nat
  total : Int
deriving DecidableEq, Repr

/-- Payload accepted by `ReceiptItemSchema.omit({id, createdAt, updatedAt})`. -/
structure ItemPayload where
  receiptId : Int
  name : String
  price : Int
  quantity : Int
deriving DecidableEq, Repr

/-! ## Store operations (`src/server/storage.ts`, first module)

Each create receives the freshly generated id (`parseInt(nanoid())`) and the
current time (`new Date()`) as explicit inputs. -/

/-- `createUser`: spread the payload, assign id and timestamps, push. -/
def createUser (data : UserPayload) (freshId : JsNum) (now : Nat)
    (st : Store) : User × Store :=
  let user : User :=
    { id := freshId, name := data.name, email := data.email
      createdAt := now, updatedAt := now }
  (user, { st with users := st.users ++ [user] })

/-- `getUserById`: linear `find` by `===` on ids. -/
def getUserById (id : JsNum) (st : Store) : Option User :=
  st.users.find? (fun user => jsEq user.id id)

/-- `getUserByEmail`: linear `find` by `===` on the email string. -/
def getUserByEmail (email : String) (st : Store) : Option User :=
  st.users.find? (fun user => user.email == email)

/-- `createReceipt`: spread the payload, assign id and timestamps, push. -/
def createReceipt (data : ReceiptPayload) (freshId : JsNum) (now : Nat)
    (st : Store) : Receipt × Store :=
  let receipt : Receipt :=
    { id := freshId, userId := data.userId, storeName := data.storeName
      date := data.date, total := data.total
      createdAt := now, updatedAt := now }
  (receipt, { st with receipts := st.receipts ++ [receipt] })

/-- `getReceiptById`: linear `find` by `===` on ids. -/
def getReceiptById (id : JsNum) (st : Store) : Option Receipt :=
  st.receipts.find? (fun receipt => jsEq receipt.id id)

/-- `getAllReceipts`: the whole sequence. -/
def getAllReceipts (st : Store) : List Receipt :=
  st.receipts

/-- `getReceiptsByUserId`: linear filter (`receipt.userId === userId`). -/
def getReceiptsByUserId (userId : JsNum) (st : Store) : List Receipt :=
  st.receipts.filter (fun receipt =>
    match receipt.userId with
    | some u => jsEq (some u) userId
    | none => false)

/-- `createReceiptItem`: spread the payload, assign id and timestamps, push. -/
def createReceiptItem (data : ItemPayload) (freshId : JsNum) (now : Nat)
    (st : Store) : ReceiptItem × Store :=
  let item : ReceiptItem :=
    { id := freshId, receiptId := data.receiptId, name := data.name
      price := data.price, quantity := data.quantity
      createdAt := now, updatedAt := now }
  (item, { st with receiptItems := st.receiptItems ++ [item] })

/-- `getReceiptItemsByReceiptId`: linear filter by `===`. -/
def getReceiptItemsByReceiptId (receiptId : JsNum) (st : Store) : List ReceiptItem :=
  st.receiptItems.filter (fun item => jsEq (some item.receiptId) receiptId)

/-- `deleteReceiptItem`: `findIndex` then `splice(index, 1)` — removes the
first item whose id `===` the argument, no-op when none matches. -/
def deleteReceiptItem (id : JsNum) (st : Store) : Store :=
  match st.receiptItems.findIdx? (fun item => jsEq item.id id) with
  | none => st
  | some index =>
      { st with receiptItems :=
          st.receiptItems.take index ++ st.receiptItems.drop (index + 1) }

/-! ## Zod validation layer

The route layer parses request bodies with `Schema.omit({id, createdAt,
updatedAt}).parse(...)`.  Missing or wrongly-typed fields raise a
`ZodError`; unknown keys are stripped.  We model a successful parse as
`Except.ok payload` and a `ZodError` as `Except.error message`, where the
message stands for the human-readable string `fromZodError` derives. -/

/-- Look up a key in a JS object's field list (first occurrence). -/
def lookupField (fields : List (String × JsVal)) (key : String) : Option JsVal :=
  (fields.find? (fun kv => kv.1 == key)).map (fun kv => kv.2)

/-- Field list seen by `{...v}`: the object's own fields, or nothing for
primitives (string/array spreads only yield numeric index keys, which no
schema field name matches). -/
def spreadFields (v : JsVal) : List (String × JsVal) :=
  match v with
  | .obj fields => fields
  | _ => []

/-- JS word character, the `\w` class: `[A-Za-z0-9_]`. -/
def isWordChar (c : Char) : Bool :=
  c.isAlpha || c.isDigit || c == '_'

/-- Character allowed in the local part of Zod's email regex
(`[A-Z0-9_'+\-\.]`, case-insensitive); code 39 is the apostrophe. -/
def isEmailLocalChar (c : Char) : Bool :=
  c.isAlpha || c.isDigit || c == '_' || c.toNat == 39 || c == '+' || c == '-' || c == '.'

/-- Character allowed as the final local-part character (`[A-Z0-9_+-]`). -/
def isEmailLocalEndChar (c : Char) : Bool :=
  c.isAlpha || c.isDigit || c == '_' || c == '+' || c == '-'

/-- Split a character list on a separator character (like `String.splitOn`
with a one-character separator, structurally recursive). -/
def splitOnChar (sep : Char) : List Char → List (List Char)
  | [] => [[]]
  | c :: rest =>
      if c == sep then
        [] :: splitOnChar sep rest
      else
        match splitOnChar sep rest with
        | [] => [[c]]
        | group :: groups => (c :: group) :: groups

/-- Does the list contain two consecutive dots (the regex's `(?!.*\.\.)`)? -/
def hasDoubleDot : List Char → Bool
  | c1 :: c2 :: rest => (c1 == '.' && c2 == '.') || hasDoubleDot (c2 :: rest)
  | _ => false

/-- A domain label `[A-Z0-9][A-Z0-9\-]*`: leading alphanumeric, then
alphanumerics and hyphens. -/
def isDomainLabel : List Char → Bool
  | [] => false
  | c :: rest => (c.isAlpha || c.isDigit) && rest.all (fun d => d.isAlpha || d.isDigit || d == '-')

/-- Modelled from the zod library (not part of this repository):
`z.string().email()` checks the case-insensitive regex
`^(?!\.)(?!.*\.\.)([A-Z0-9_'+\-\.]*)[A-Z0-9_+-]@([A-Z0-9][A-Z0-9\-]*\.)+[A-Z]{2,}$`:
no leading dot, no `..` anywhere, a non-empty local part over the local
class ending in a non-dot character, one `@`, then dot-separated labels with
a final all-alphabetic part of length at least 2. -/
def emailValid (s : String) : Bool :=
  let cs := s.toList
  (match cs with
   | '.' :: _ => false
   | _ => true) &&
  !hasDoubleDot cs &&
  (match splitOnChar '@' cs with
   | [localPart, domain] =>
       !localPart.isEmpty &&
       localPart.all isEmailLocalChar &&
       (match localPart.getLast? with
        | some c => isEmailLocalEndChar c
        | none => false) &&
       (let parts := splitOnChar '.' domain
        decide (2 ≤ parts.length) &&
        parts.dropLast.all isDomainLabel &&
        (let tld := parts.getLastD []
         decide (2 ≤ tld.length) && tld.all Char.isAlpha))
   | _ => false)

/-- `UserSchema.omit({id, createdAt, updatedAt}).parse(body)`:
`name` must be a string (any string — there is no non-empty constraint),
`email` a string passing the email regex. -/
def parseUserPayload (body : JsVal) : Except String UserPayload :=
  match lookupField (spreadFields body) "name", lookupField (spreadFields body) "email" with
  | some (.str name), some (.str email) =>
      if emailValid email then
        .ok { name := name, email := email }
      else
        .error "Validation error: Invalid email at email"
  | _, _ => .error "Validation error: invalid user payload"

/-- `ReceiptSchema.omit({id, createdAt, updatedAt}).parse(body)`:
`userId` a number or `null`, `storeName` a string, `date` a `Date`,
`total` a number. -/
def parseReceiptPayload (body : JsVal) : Except String ReceiptPayload :=
  match lookupField (spreadFields body) "userId", lookupField (spreadFields body) "storeName",
        lookupField (spreadFields body) "date", lookupField (spreadFields body) "total" with
  | some uid, some (.str storeName), some (.date d), some (.num total) =>
      match uid with
      | .num n => .ok { userId := some n, storeName := storeName, date := d, total := total }
      | .null => .ok { userId := none, storeName := storeName, date := d, total := total }
      | _ => .error "Validation error: invalid receipt payload"
  | _, _, _, _ => .error "Validation error: invalid receipt payload"

/-- `ReceiptItemSchema.omit({id, createdAt, updatedAt}).parse(body)` for the
flat `/api/receipt-items` route: `receiptId`, `price`, `quantity` numbers
(`z.number()` rejects `NaN`), `name` a string. -/
def parseItemPayload (body : JsVal) : Except String ItemPayload :=
  match lookupField (spreadFields body) "receiptId", lookupField (spreadFields body) "name",
        lookupField (spreadFields body) "price", lookupField (spreadFields body) "quantity" with
  | some (.num receiptId), some (.str name), some (.num price), some (.num quantity) =>
      .ok { receiptId := receiptId, name := name, price := price, quantity := quantity }
  | _, _, _, _ => .error "Validation error: invalid receipt item payload"

/-- `ReceiptItemSchema.omit(...).parse({...item, receiptId})` in the nested
items route: the path-derived `receiptId` (possibly `NaN`, which
`z.number()` rejects) overrides any `receiptId` in the body. -/
def parseItemWithReceiptId (body : JsVal) (receiptId : JsNum) : Except String ItemPayload :=
  match receiptId, lookupField (spreadFields body) "name",
        lookupField (spreadFields body) "price", lookupField (spreadFields body) "quantity" with
  | some rid, some (.str name), some (.num price), some (.num quantity) =>
      .ok { receiptId := rid, name := name, price := price, quantity := quantity }
  | _, _, _, _ => .error "Validation error: invalid receipt item payload"

/-! ## Route handlers (`registerRoutes` and the `/fetch-product` router) -/

/-- A response body, as far as the claims need to distinguish them. -/
inductive Body where
  | receiptB (r : Receipt)
  | receiptsB (rs : List Receipt)
  | itemB (x : ReceiptItem)
  | itemsB (xs : List ReceiptItem)
  | userB (u : User)
  | msgB (m : String)
  | emptyB
deriving DecidableEq, Repr

/-- An HTTP response: status code and body. -/
structure Resp where
  status : Nat
  body : Body
deriving DecidableEq, Repr

/-- `GET /api/receipts/:id`: 404 when the id finds nothing, else 200 with
the receipt.  The id argument is the `parseInt` of the path parameter. -/
def getReceiptHandler (id : JsNum) (st : Store) : Resp × Store :=
  match getReceiptById id st with
  | none => ({ status := 404, body := .msgB "Receipt not found" }, st)
  | some receipt => ({ status := 200, body := .receiptB receipt }, st)

/-- `POST /api/receipts`: validate, create, 201 with the created receipt;
`ZodError` becomes 400 with the derived message. -/
def postReceiptsHandler (body : JsVal) (freshId : JsNum) (now : Nat)
    (st : Store) : Resp × Store :=
  match parseReceiptPayload body with
  | .error msg => ({ status := 400, body := .msgB msg }, st)
  | .ok data =>
      let (receipt, st') := createReceipt data freshId now st
      ({ status := 201, body := .receiptB receipt }, st')

/-- The `for (const item of items)` loop of the nested items route: parse
each body with the path `receiptId` spliced in, create it, and stop at the
first `ZodError` — items created before the error stay in the store.
`gen k` is the id `parseInt(nanoid())` yields for the `k`-th creation. -/
def createItemsLoop (receiptId : JsNum) (gen : Nat → JsNum) (now : Nat) :
    List JsVal → Nat → Store → List ReceiptItem →
    Except String (List ReceiptItem) × Store
  | [], _, st, acc => (.ok acc, st)
  | v :: rest, k, st, acc =>
      match parseItemWithReceiptId v receiptId with
      | .error msg => (.error msg, st)
      | .ok data =>
          let (item, st') := createReceiptItem data (gen k) now st
          createItemsLoop receiptId gen now rest (k + 1) st' (acc ++ [item])

/-- `POST /api/receipts/:receiptId/items`: 404 when the receipt does not
exist; otherwise wrap a non-array body in a singleton array, create the
items in order, answer 201 with all of them, or 400 at the first
validation error (creations so far are kept). -/
def postNestedItemsHandler (receiptId : JsNum) (body : JsVal)
    (gen : Nat → JsNum) (now : Nat) (st : Store) : Resp × Store :=
  match getReceiptById receiptId st with
  | none => ({ status := 404, body := .msgB "Receipt not found" }, st)
  | some _ =>
      let items := match body with
        | .arr elems => elems
        | v => [v]
      match createItemsLoop receiptId gen now items 0 st [] with
      | (.ok created, st') => ({ status := 201, body := .itemsB created }, st')
      | (.error msg, st') => ({ status := 400, body := .msgB msg }, st')

/-- `POST /api/users`: validate, create, `res.json(user)` (status 200);
`ZodError` becomes 400 with the derived message. -/
def postUsersHandler (body : JsVal) (freshId : JsNum) (now : Nat)
    (st : Store) : Resp × Store :=
  match parseUserPayload body with
  | .error msg => ({ status := 400, body := .msgB msg }, st)
  | .ok data =>
      let (user, st') := createUser data freshId now st
      ({ status := 200, body := .userB user }, st')

/-- `POST /api/receipt-items`: validate, create, `res.json(item)` (200). -/
def postReceiptItemsHandler (body : JsVal) (freshId : JsNum) (now : Nat)
    (st : Store) : Resp × Store :=
  match parseItemPayload body with
  | .error msg => ({ status := 400, body := .msgB msg }, st)
  | .ok data =>
      let (item, st') := createReceiptItem data freshId now st
      ({ status := 200, body := .itemB item }, st')

/-- `DELETE /api/receipt-items/:id`: delete (no-op when absent), then
`res.status(204).send()` — 204 with an empty body, unconditionally. -/
def deleteReceiptItemHandler (id : JsNum) (st : Store) : Resp × Store :=
  ({ status := 204, body := .emptyB }, deleteReceiptItem id st)

/-! ## `/fetch-product` helper (`parseProductFromUrl`) -/

/-- Product info returned by the helper endpoint. -/
structure ProductInfo where
  name : String
  price : String
deriving DecidableEq, Repr

/-- Modelled from the WHATWG `URL` constructor (a runtime built-in, not part
of this repository), restricted to absolute URLs with an authority: the
characters after the first `://`; `none` models the constructor throwing. -/
def urlRemainder : List Char → Option (List Char)
  | [] => none
  | ':' :: '/' :: '/' :: rest => some rest
  | _ :: rest => urlRemainder rest

/-- `new URL(url).pathname`: skip the authority (everything up to the first
`/`, `?` or `#`), keep the path up to any query or fragment; an empty path
is reported as `/`. -/
def urlPathname (url : String) : Option (List Char) :=
  (urlRemainder url.toList).map (fun rest =>
    let afterHost := rest.dropWhile (fun c => !(c == '/' || c == '?' || c == '#'))
    let path := afterHost.takeWhile (fun c => !(c == '?' || c == '#'))
    if path.isEmpty then ['/'] else path)

/-- The `.replace(/\b\w/g, l => l.toUpperCase())` pass: uppercase every word
character that does not follow a word character.  The flag records whether
the previous character was a word character. -/
def capitalizeChars : Bool → List Char → List Char
  | _, [] => []
  | prevWord, c :: rest =>
      let isW := isWordChar c
      (if isW && !prevWord then c.toUpper else c) :: capitalizeChars isW rest

/-- `parseProductFromUrl`: take the pathname's last `/`-separated segment,
replace hyphens by spaces, capitalize each word, and pair the result with
the placeholder price `"0.00"`; a URL the constructor rejects raises
`Failed to parse product URL`. -/
def parseProductFromUrl (url : String) : Except String ProductInfo :=
  match urlPathname url with
  | none => .error "Failed to parse product URL"
  | some path =>
      let lastPart := (splitOnChar '/' path).getLastD []
      let productName :=
        capitalizeChars false (lastPart.map (fun c => if c == '-' then ' ' else c))
      .ok { name := String.mk productName, price := "0.00" }

/-! ## Helper lemmas -/

/-- `jsEq` against a real number on the right holds exactly on that number. -/
lemma jsEq_some_right {a : JsNum} {n : Int} : jsEq a (some n) = true ↔ a = some n := by
  cases a <;> simp [jsEq]

/-- `findIdx?` (with its start index) finds nothing when the test fails
everywhere. -/
lemma findIdx?_all_false {α : Type} (p : α → Bool) :
    ∀ (l : List α) (i : Nat), (∀ x ∈ l, p x = false) → l.findIdx? p i = none
  | [], _, _ => rfl
  | a :: l, i, h => by
    have ha : p a = false := h a (List.mem_cons_self a l)
    have hrec := findIdx?_all_false p l (i + 1) (fun x hx => h x (List.mem_cons_of_mem a hx))
    show (if p a then some i else l.findIdx? p (i + 1)) = none
    rw [ha, hrec]
    rfl

/-- `findIdx?` on `pre ++ x :: post` where the test fails on all of `pre`
and holds at `x` returns the index of `x`. -/
lemma findIdx?_decomp {α : Type} (p : α → Bool) :
    ∀ (pre : List α) (x : α) (post : List α) (i : Nat),
      (∀ y ∈ pre, p y = false) → p x = true →
      (pre ++ x :: post).findIdx? p i = some (i + pre.length)
  | [], x, post, i, _, hx => by
    show (if p x then some i else post.findIdx? p (i + 1)) = some (i + 0)
    rw [hx]
    rfl
  | a :: pre, x, post, i, hpre, hx => by
    have ha : p a = false := hpre a (List.mem_cons_self a pre)
    have hrec := findIdx?_decomp p pre x post (i + 1)
      (fun y hy => hpre y (List.mem_cons_of_mem a hy)) hx
    show (if p a then some i else ((pre ++ x :: post).findIdx? p (i + 1))) = _
    rw [ha, hrec]
    simp
    omega

/-- Dropping one element past a front segment of an append. -/
lemma drop_append_cons {α : Type} (pre : List α) (x : α) (post : List α) :
    (pre ++ x :: post).drop (pre.length + 1) = post := by
  calc (pre ++ x :: post).drop (pre.length + 1)
      = ((pre ++ [x]) ++ post).drop ((pre ++ [x]).length) := by simp
    _ = post := List.drop_left _ _

/-- An `Except` with `isOk` is an `ok`. -/
lemma isOk_exists {ε α : Type} {e : Except ε α} (h : e.isOk = true) : ∃ a, e = .ok a := by
  cases e with
  | error msg => simp [Except.isOk, Except.toBool] at h
  | ok a => exact ⟨a, rfl⟩

/-- An `Except` without `isOk` is an `error`. -/
lemma not_isOk_exists {ε α : Type} {e : Except ε α} (h : e.isOk = false) : ∃ msg, e = .error msg := by
  cases e with
  | error msg => exact ⟨msg, rfl⟩
  | ok a => simp [Except.isOk, Except.toBool] at h

/-- A successful nested-route item parse forces the stored `receiptId` to be
the (non-`NaN`) path parameter. -/
lemma parseItemWithReceiptId_ok_rid {v : JsVal} {rid : JsNum} {data : ItemPayload}
    (h : parseItemWithReceiptId v rid = .ok data) : rid = some data.receiptId := by
  unfold parseItemWithReceiptId at h
  split at h
  · injection h with h'
    subst h'
    rfl
  · exact absurd h (by simp)

/-! ## Claims -/

/-- C7: for every id with no matching receipt in the store,
`GET /api/receipts/:id` returns 404 (not the 500 error path) and leaves the
store unchanged. -/
theorem get_missing_receipt_404 (st : Store) (id : JsNum)
    (h : getReceiptById id st = none) :
    getReceiptHandler id st = ({ status := 404, body := .msgB "Receipt not found" }, st) := by
  unfold getReceiptHandler
  rw [h]

/-- Witness for C7: on an empty store, `GET /api/receipts/5` is a 404 that
does not touch the store. -/
theorem get_missing_receipt_404_witness :
    getReceiptHandler (some 5) { users := [], receipts := [], receiptItems := [] } =
      ({ status := 404, body := .msgB "Receipt not found" },
       { users := [], receipts := [], receiptItems := [] }) :=
  get_missing_receipt_404 { users := [], receipts := [], receiptItems := [] } (some 5) rfl

/-- C3: posting items against a receiptId that matches no stored receipt
returns 404 and leaves the store (in particular the item sequence)
unchanged, for every request body. -/
theorem nested_items_missing_receipt_404 (st : Store) (rid : JsNum) (body : JsVal)
    (gen : Nat → JsNum) (now : Nat)
    (h : getReceiptById rid st = none) :
    postNestedItemsHandler rid body gen now st =
      ({ status := 404, body := .msgB "Receipt not found" }, st) := by
  unfold postNestedItemsHandler
  rw [h]

/-- Witness for C3: posting a valid-looking item to receipt 7 of an empty
store yields 404 and the untouched store. -/
theorem nested_items_missing_receipt_404_witness :
    postNestedItemsHandler (some 7)
      (.obj [("name", .str "Milk"), ("price", .num 3), ("quantity", .num 1)])
      (fun _ => some 9) 0 { users := [], receipts := [], receiptItems := [] } =
      ({ status := 404, body := .msgB "Receipt not found" },
       { users := [], receipts := [], receiptItems := [] }) :=
  nested_items_missing_receipt_404 { users := [], receipts := [], receiptItems := [] }
    (some 7) (.obj [("name", .str "Milk"), ("price", .num 3), ("quantity", .num 1)])
    (fun _ => some 9) 0 rfl

/-- C5: `createUser` appends unconditionally — it performs no
email-uniqueness check and never rejects — so two creations with the same
email leave the store holding both records, i.e. at least two users with
that email. -/
theorem createUser_ignores_email_uniqueness (st : Store) (d1 d2 : UserPayload)
    (i1 i2 : JsNum) (t1 t2 : Nat) (h : d1.email = d2.email) :
    (createUser d2 i2 t2 (createUser d1 i1 t1 st).2).2.users =
      st.users ++ [(createUser d1 i1 t1 st).1, (createUser d2 i2 t2 (createUser d1 i1 t1 st).2).1] ∧
    2 ≤ ((createUser d2 i2 t2 (createUser d1 i1 t1 st).2).2.users.filter
          (fun u => u.email == d2.email)).length := by
  constructor
  · simp [createUser]
  · simp [createUser, List.filter_append, h]

/-- Witness for C5: creating `alice@example.com` twice on the empty store
stores two users with that email. -/
theorem createUser_ignores_email_uniqueness_witness :
    (createUser { name := "B", email := "alice@example.com" } (some 2) 1
      (createUser { name := "A", email := "alice@example.com" } (some 1) 0
        { users := [], receipts := [], receiptItems := [] }).2).2.users =
      [] ++ [{ id := some 1, name := "A", email := "alice@example.com", createdAt := 0, updatedAt := 0 },
             { id := some 2, name := "B", email := "alice@example.com", createdAt := 1, updatedAt := 1 }] ∧
    2 ≤ ((createUser { name := "B", email := "alice@example.com" } (some 2) 1
      (createUser { name := "A", email := "alice@example.com" } (some 1) 0
        { users := [], receipts := [], receiptItems := [] }).2).2.users.filter
          (fun u => u.email == "alice@example.com")).length :=
  createUser_ignores_email_uniqueness { users := [], receipts := [], receiptItems := [] }
    { name := "A", email := "alice@example.com" } { name := "B", email := "alice@example.com" }
    (some 1) (some 2) 0 1 rfl

/-- C6: `DELETE /api/receipt-items/:id` always answers 204 with an empty
body, never touches users or receipts, removes exactly the first item whose
id matches (the others keep their relative order), and is a no-op on the
item sequence when nothing matches. -/
theorem delete_item_frame (st : Store) (id : JsNum) :
    (deleteReceiptItemHandler id st).1 = { status := 204, body := .emptyB } ∧
    (deleteReceiptItemHandler id st).2.users = st.users ∧
    (deleteReceiptItemHandler id st).2.receipts = st.receipts ∧
    ((∀ it ∈ st.receiptItems, jsEq it.id id = false) →
      (deleteReceiptItemHandler id st).2.receiptItems = st.receiptItems) ∧
    (∀ pre x post, st.receiptItems = pre ++ x :: post →
      (∀ y ∈ pre, jsEq y.id id = false) → jsEq x.id id = true →
      (deleteReceiptItemHandler id st).2.receiptItems = pre ++ post) := by
  refine ⟨rfl, ?_, ?_, ?_, ?_⟩
  · unfold deleteReceiptItemHandler deleteReceiptItem
    split <;> rfl
  · unfold deleteReceiptItemHandler deleteReceiptItem
    split <;> rfl
  · intro hnone
    unfold deleteReceiptItemHandler deleteReceiptItem
    rw [findIdx?_all_false _ _ _ hnone]
  · intro pre x post hdecomp hpre hx
    unfold deleteReceiptItemHandler deleteReceiptItem
    rw [hdecomp, findIdx?_decomp _ pre x post 0 hpre hx]
    simp only [Nat.zero_add]
    rw [drop_append_cons]
    have htake : (pre ++ x :: post).take pre.length = pre := List.take_left pre (x :: post)
    rw [htake]

/-- Witness for C6: deleting id 2 from `[item₁, item₂, item₃]` with
`item₂.id = 2` leaves `[item₁, item₃]`, answering 204 with an empty body. -/
theorem delete_item_frame_witness :
    (deleteReceiptItemHandler (some 2)
      { users := [], receipts := [],
        receiptItems :=
          [{ id := some 1, receiptId := 1, name := "a", price := 1, quantity := 1, createdAt := 0, updatedAt := 0 },
           { id := some 2, receiptId := 1, name := "b", price := 2, quantity := 1, createdAt := 0, updatedAt := 0 },
           { id := some 3, receiptId := 1, name := "c", price := 3, quantity := 1, createdAt := 0, updatedAt := 0 }] }).2.receiptItems =
      [{ id := some 1, receiptId := 1, name := "a", price := 1, quantity := 1, createdAt := 0, updatedAt := 0 }] ++
      [{ id := some 3, receiptId := 1, name := "c", price := 3, quantity := 1, createdAt := 0, updatedAt := 0 }] :=
  (delete_item_frame
    { users := [], receipts := [],
      receiptItems :=
        [{ id := some 1, receiptId := 1, name := "a", price := 1, quantity := 1, createdAt := 0, updatedAt := 0 },
         { id := some 2, receiptId := 1, name := "b", price := 2, quantity := 1, createdAt := 0, updatedAt := 0 },
         { id := some 3, receiptId := 1, name := "c", price := 3, quantity := 1, createdAt := 0, updatedAt := 0 }] }
    (some 2)).2.2.2.2
    [{ id := some 1, receiptId := 1, name := "a", price := 1, quantity := 1, createdAt := 0, updatedAt := 0 }]
    { id := some 2, receiptId := 1, name := "b", price := 2, quantity := 1, createdAt := 0, updatedAt := 0 }
    [{ id := some 3, receiptId := 1, name := "c", price := 3, quantity := 1, createdAt := 0, updatedAt := 0 }]
    rfl (by decide) rfl

/-- C9: on successful creation `POST /api/receipts` answers 201 while
`POST /api/users` and `POST /api/receipt-items` answer 200 — the documented
status-code inconsistency is reproduced as-is. -/
theorem create_status_codes (freshId : JsNum) (now : Nat) (st : Store) :
    (∀ body data, parseReceiptPayload body = .ok data →
      (postReceiptsHandler body freshId now st).1.status = 201) ∧
    (∀ body data, parseUserPayload body = .ok data →
      (postUsersHandler body freshId now st).1.status = 200) ∧
    (∀ body data, parseItemPayload body = .ok data →
      (postReceiptItemsHandler body freshId now st).1.status = 200) := by
  refine ⟨?_, ?_, ?_⟩ <;> intro body data h
  · unfold postReceiptsHandler
    rw [h]
  · unfold postUsersHandler
    rw [h]
  · unfold postReceiptItemsHandler
    rw [h]

/-- Witness for C9: concrete valid payloads get 201 / 200 / 200. -/
theorem create_status_codes_witness :
    (postReceiptsHandler
      (.obj [("userId", .null), ("storeName", .str "S"), ("date", .date 1), ("total", .num 2)])
      (some 1) 0 { users := [], receipts := [], receiptItems := [] }).1.status = 201 ∧
    (postUsersHandler (.obj [("name", .str "A"), ("email", .str "a@b.co")])
      (some 1) 0 { users := [], receipts := [], receiptItems := [] }).1.status = 200 ∧
    (postReceiptItemsHandler
      (.obj [("receiptId", .num 1), ("name", .str "x"), ("price", .num 2), ("quantity", .num 3)])
      (some 1) 0 { users := [], receipts := [], receiptItems := [] }).1.status = 200 :=
  ⟨(create_status_codes (some 1) 0 { users := [], receipts := [], receiptItems := [] }).1
      (.obj [("userId", .null), ("storeName", .str "S"), ("date", .date 1), ("total", .num 2)])
      { userId := none, storeName := "S", date := 1, total := 2 } rfl,
   (create_status_codes (some 1) 0 { users := [], receipts := [], receiptItems := [] }).2.1
      (.obj [("name", .str "A"), ("email", .str "a@b.co")])
      { name := "A", email := "a@b.co" } rfl,
   (create_status_codes (some 1) 0 { users := [], receipts := [], receiptItems := [] }).2.2
      (.obj [("receiptId", .num 1), ("name", .str "x"), ("price", .num 2), ("quantity", .num 3)])
      { receiptId := 1, name := "x", price := 2, quantity := 3 } rfl⟩

/-- One step of the items loop on a payload that validates: create the item
and continue on the grown store. -/
lemma createItemsLoop_cons_ok {v : JsVal} {rid : JsNum} {data : ItemPayload}
    (gen : Nat → JsNum) (now : Nat) (rest : List JsVal) (k : Nat) (st : Store)
    (acc : List ReceiptItem)
    (h : parseItemWithReceiptId v rid = .ok data) :
    createItemsLoop rid gen now (v :: rest) k st acc =
      createItemsLoop rid gen now rest (k + 1)
        (createReceiptItem data (gen k) now st).2
        (acc ++ [(createReceiptItem data (gen k) now st).1]) := by
  conv_lhs => unfold createItemsLoop
  rw [h]

/-- One step of the items loop on a payload that fails validation: report
the error with the store as it stands. -/
lemma createItemsLoop_cons_error {v : JsVal} {rid : JsNum} {msg : String}
    (gen : Nat → JsNum) (now : Nat) (rest : List JsVal) (k : Nat) (st : Store)
    (acc : List ReceiptItem)
    (h : parseItemWithReceiptId v rid = .error msg) :
    createItemsLoop rid gen now (v :: rest) k st acc = (.error msg, st) := by
  conv_lhs => unfold createItemsLoop
  rw [h]

/-- Running the items loop across a block of payloads that all validate
appends one created item per payload (each carrying the path `receiptId`)
and continues into the remaining payloads. -/
lemma createItemsLoop_ok_append (rid : JsNum) (gen : Nat → JsNum) (now : Nat) :
    ∀ (goods tail : List JsVal) (k : Nat) (st : Store) (acc : List ReceiptItem),
      (∀ v ∈ goods, (parseItemWithReceiptId v rid).isOk = true) →
      ∃ created : List ReceiptItem,
        createItemsLoop rid gen now (goods ++ tail) k st acc =
          createItemsLoop rid gen now tail (k + goods.length)
            { st with receiptItems := st.receiptItems ++ created } (acc ++ created) ∧
        created.length = goods.length ∧
        ∀ it ∈ created, rid = some it.receiptId
  | [], tail, k, st, acc, _ => ⟨[], by simp, rfl, by simp⟩
  | v :: goods, tail, k, st, acc, h => by
    have hv : (parseItemWithReceiptId v rid).isOk = true := h v (List.mem_cons_self v goods)
    obtain ⟨data, hdata⟩ := isOk_exists hv
    have hrid : rid = some data.receiptId := parseItemWithReceiptId_ok_rid hdata
    obtain ⟨created, heq, hlen, hall⟩ :=
      createItemsLoop_ok_append rid gen now goods tail (k + 1)
        (createReceiptItem data (gen k) now st).2
        (acc ++ [(createReceiptItem data (gen k) now st).1])
        (fun w hw => h w (List.mem_cons_of_mem v hw))
    refine ⟨(createReceiptItem data (gen k) now st).1 :: created, ?_, by simp [hlen], ?_⟩
    · rw [List.cons_append, createItemsLoop_cons_ok gen now (goods ++ tail) k st acc hdata, heq]
      simp [createReceiptItem, Nat.add_comm, Nat.add_assoc, Nat.add_left_comm]
    · intro it hit
      rcases List.mem_cons.mp hit with hit | hit
      · rw [hit, hrid]
        rfl
      · exact hall it hit

/-- C2: posting an array of N payloads that all validate against an
existing receipt answers 201 with exactly the N created items appended to
the store, every one carrying the path parameter as its `receiptId`
(whatever `receiptId` the payload bodies held). -/
theorem nested_items_create_count (st : Store) (r : Receipt) (rid : JsNum)
    (payloads : List JsVal) (gen : Nat → JsNum) (now : Nat)
    (hr : getReceiptById rid st = some r)
    (hvalid : ∀ v ∈ payloads, (parseItemWithReceiptId v rid).isOk = true) :
    ∃ created : List ReceiptItem,
      postNestedItemsHandler rid (.arr payloads) gen now st =
        ({ status := 201, body := .itemsB created },
         { st with receiptItems := st.receiptItems ++ created }) ∧
      created.length = payloads.length ∧
      ∀ it ∈ created, rid = some it.receiptId := by
  obtain ⟨created, heq, hlen, hall⟩ :=
    createItemsLoop_ok_append rid gen now payloads [] 0 st [] hvalid
  rw [List.append_nil] at heq
  refine ⟨created, ?_, hlen, hall⟩
  unfold postNestedItemsHandler
  rw [hr]
  show (match createItemsLoop rid gen now payloads 0 st [] with
        | (.ok created, st') => (({ status := 201, body := .itemsB created } : Resp), st')
        | (.error msg, st') => (({ status := 400, body := .msgB msg } : Resp), st')) = _
  rw [heq]
  rfl

/-- C8: batch item creation is not atomic — when the payloads are a valid
block followed by an invalid one, the route answers 400 but the items
validated before the failure have already been appended and stay in the
store. -/
theorem nested_items_partial_creation (st : Store) (r : Receipt) (rid : JsNum)
    (goods : List JsVal) (bad : JsVal) (rest : List JsVal)
    (gen : Nat → JsNum) (now : Nat)
    (hr : getReceiptById rid st = some r)
    (hgoods : ∀ v ∈ goods, (parseItemWithReceiptId v rid).isOk = true)
    (hbad : (parseItemWithReceiptId bad rid).isOk = false) :
    ∃ (created : List ReceiptItem) (msg : String),
      postNestedItemsHandler rid (.arr (goods ++ bad :: rest)) gen now st =
        ({ status := 400, body := .msgB msg },
         { st with receiptItems := st.receiptItems ++ created }) ∧
      created.length = goods.length ∧
      ∀ it ∈ created, rid = some it.receiptId := by
  obtain ⟨msg, hmsg⟩ := not_isOk_exists hbad
  obtain ⟨created, heq, hlen, hall⟩ :=
    createItemsLoop_ok_append rid gen now goods (bad :: rest) 0 st [] hgoods
  refine ⟨created, msg, ?_, hlen, hall⟩
  unfold postNestedItemsHandler
  rw [hr]
  show (match createItemsLoop rid gen now (goods ++ bad :: rest) 0 st [] with
        | (.ok created, st') => (({ status := 201, body := .itemsB created } : Resp), st')
        | (.error msg, st') => (({ status := 400, body := .msgB msg } : Resp), st')) = _
  rw [heq, createItemsLoop_cons_error gen now rest (0 + goods.length)
    { st with receiptItems := st.receiptItems ++ created } ([] ++ created) hmsg]

/-- Witness for C2: one valid payload posted to an existing receipt yields a
singleton created list carrying the path receiptId. -/
theorem nested_items_create_count_witness :
    ∃ created : List ReceiptItem,
      postNestedItemsHandler (some 1)
        (.arr [.obj [("name", .str "Milk"), ("price", .num 3), ("quantity", .num 2), ("receiptId", .num 99)]])
        (fun _ => some 5) 4
        { users := [], receipts := [{ id := some 1, userId := none, storeName := "S", date := 0, total := 3, createdAt := 0, updatedAt := 0 }], receiptItems := [] } =
        ({ status := 201, body := .itemsB created },
         { users := [], receipts := [{ id := some 1, userId := none, storeName := "S", date := 0, total := 3, createdAt := 0, updatedAt := 0 }], receiptItems := [] ++ created }) ∧
      created.length = 1 ∧
      ∀ it ∈ created, some 1 = some it.receiptId :=
  nested_items_create_count
    { users := [], receipts := [{ id := some 1, userId := none, storeName := "S", date := 0, total := 3, createdAt := 0, updatedAt := 0 }], receiptItems := [] }
    { id := some 1, userId := none, storeName := "S", date := 0, total := 3, createdAt := 0, updatedAt := 0 }
    (some 1)
    [.obj [("name", .str "Milk"), ("price", .num 3), ("quantity", .num 2), ("receiptId", .num 99)]]
    (fun _ => some 5) 4 rfl (by decide)

/-- Witness for C8: a valid payload followed by an invalid one gets 400
while the first item stays created. -/
theorem nested_items_partial_creation_witness :
    ∃ (created : List ReceiptItem) (msg : String),
      postNestedItemsHandler (some 1)
        (.arr ([.obj [("name", .str "Milk"), ("price", .num 3), ("quantity", .num 2)]] ++ (.obj []) :: []))
        (fun _ => some 5) 4
        { users := [], receipts := [{ id := some 1, userId := none, storeName := "S", date := 0, total := 3, createdAt := 0, updatedAt := 0 }], receiptItems := [] } =
        ({ status := 400, body := .msgB msg },
         { users := [], receipts := [{ id := some 1, userId := none, storeName := "S", date := 0, total := 3, createdAt := 0, updatedAt := 0 }], receiptItems := [] ++ created }) ∧
      created.length = 1 ∧
      ∀ it ∈ created, some 1 = some it.receiptId :=
  nested_items_partial_creation
    { users := [], receipts := [{ id := some 1, userId := none, storeName := "S", date := 0, total := 3, createdAt := 0, updatedAt := 0 }], receiptItems := [] }
    { id := some 1, userId := none, storeName := "S", date := 0, total := 3, createdAt := 0, updatedAt := 0 }
    (some 1)
    [.obj [("name", .str "Milk"), ("price", .num 3), ("quantity", .num 2)]]
    (.obj []) []
    (fun _ => some 5) 4 rfl (by decide) rfl

/-- C1 (amended): when the freshly generated id is an actual number that no
stored receipt already carries, `POST /api/receipts` with a valid payload
answers 201 with the payload plus server-assigned id and timestamps, and a
subsequent `GET /api/receipts/:id` with that id returns the same record. -/
theorem receipt_create_read_roundtrip (st : Store) (body : JsVal) (data : ReceiptPayload)
    (n : Int) (now : Nat)
    (hbody : parseReceiptPayload body = .ok data)
    (hfresh : ∀ r ∈ st.receipts, r.id ≠ some n) :
    postReceiptsHandler body (some n) now st =
      ({ status := 201, body := .receiptB
           { id := some n, userId := data.userId, storeName := data.storeName,
             date := data.date, total := data.total, createdAt := now, updatedAt := now } },
       { st with receipts := st.receipts ++
           [{ id := some n, userId := data.userId, storeName := data.storeName,
              date := data.date, total := data.total, createdAt := now, updatedAt := now }] }) ∧
    (getReceiptHandler (some n) (postReceiptsHandler body (some n) now st).2).1 =
      { status := 200, body := .receiptB
          { id := some n, userId := data.userId, storeName := data.storeName,
            date := data.date, total := data.total, createdAt := now, updatedAt := now } } := by
  have h1 : postReceiptsHandler body (some n) now st =
      ({ status := 201, body := .receiptB
           { id := some n, userId := data.userId, storeName := data.storeName,
             date := data.date, total := data.total, createdAt := now, updatedAt := now } },
       { st with receipts := st.receipts ++
           [{ id := some n, userId := data.userId, storeName := data.storeName,
              date := data.date, total := data.total, createdAt := now, updatedAt := now }] }) := by
    unfold postReceiptsHandler
    rw [hbody]
    rfl
  refine ⟨h1, ?_⟩
  rw [h1]
  have hnone : st.receipts.find? (fun r => jsEq r.id (some n)) = none :=
    List.find?_eq_none.mpr (fun r hr => by
      simp only [jsEq_some_right]
      exact hfresh r hr)
  unfold getReceiptHandler getReceiptById
  rw [List.find?_append, hnone]
  simp [List.find?, jsEq]

/-- Witness for C1's amended round trip: a valid payload on the empty store
with fresh id 1. -/
theorem receipt_create_read_roundtrip_witness :
    postReceiptsHandler
      (.obj [("userId", .null), ("storeName", .str "New Store"), ("date", .date 10), ("total", .num 7)])
      (some 1) 3 { users := [], receipts := [], receiptItems := [] } =
      ({ status := 201, body := .receiptB
           { id := some 1, userId := none, storeName := "New Store", date := 10, total := 7, createdAt := 3, updatedAt := 3 } },
       { users := [], receipts := [] ++
           [{ id := some 1, userId := none, storeName := "New Store", date := 10, total := 7, createdAt := 3, updatedAt := 3 }],
         receiptItems := [] }) ∧
    (getReceiptHandler (some 1)
      (postReceiptsHandler
        (.obj [("userId", .null), ("storeName", .str "New Store"), ("date", .date 10), ("total", .num 7)])
        (some 1) 3 { users := [], receipts := [], receiptItems := [] }).2).1 =
      { status := 200, body := .receiptB
          { id := some 1, userId := none, storeName := "New Store", date := 10, total := 7, createdAt := 3, updatedAt := 3 } } :=
  receipt_create_read_roundtrip { users := [], receipts := [], receiptItems := [] }
    (.obj [("userId", .null), ("storeName", .str "New Store"), ("date", .date 10), ("total", .num 7)])
    { userId := none, storeName := "New Store", date := 10, total := 7 }
    1 3 rfl (by decide)

/-- Counterexample to C1 as stated: over a prior store already holding a
receipt with id 1, a create whose generated id collides (`parseInt(nanoid())`
can yield any number) answers 201 with the new record, but the subsequent
GET with that id returns the OLD receipt, not the new payload-plus-server
fields. -/
theorem receipt_roundtrip_counterexample :
    (let old : Receipt :=
       { id := some 1, userId := none, storeName := "Old Store", date := 0, total := 5, createdAt := 0, updatedAt := 0 }
     let fresh : Receipt :=
       { id := some 1, userId := none, storeName := "New Store", date := 10, total := 7, createdAt := 3, updatedAt := 3 }
     let posted := postReceiptsHandler
       (.obj [("userId", .null), ("storeName", .str "New Store"), ("date", .date 10), ("total", .num 7)])
       (some 1) 3 { users := [], receipts := [old], receiptItems := [] }
     posted.1 = { status := 201, body := .receiptB fresh } ∧
     (getReceiptHandler (some 1) posted.2).1 = { status := 200, body := .receiptB old } ∧
     old ≠ fresh) :=
  ⟨rfl, rfl, by decide⟩

/-- Counterexample to C4 as stated: a user payload whose name is the empty
string but whose email is valid passes validation — the response is 200
with the created user, not a 400. -/
theorem user_empty_name_counterexample :
    (let resp := (postUsersHandler (.obj [("name", .str ""), ("email", .str "a@b.co")])
        (some 1) 0 { users := [], receipts := [], receiptItems := [] }).1
     resp = { status := 200,
              body := .userB { id := some 1, name := "", email := "a@b.co", createdAt := 0, updatedAt := 0 } } ∧
     resp.status ≠ 400) :=
  ⟨rfl, by decide⟩

/-- C4 (amended): the user schema imposes no non-empty constraint on
`name` — an empty-name payload with a valid email passes validation and
`POST /api/users` answers 200 with the created user; payloads that do fail
validation get HTTP 400 with the message derived from the validation
error. -/
theorem user_validation_400 (st : Store) (freshId : JsNum) (now : Nat) :
    (∀ e : String, emailValid e = true →
       postUsersHandler (.obj [("name", .str ""), ("email", .str e)]) freshId now st =
         ({ status := 200,
            body := .userB { id := freshId, name := "", email := e, createdAt := now, updatedAt := now } },
          { st with users := st.users ++
              [{ id := freshId, name := "", email := e, createdAt := now, updatedAt := now }] })) ∧
    (∀ body msg, parseUserPayload body = .error msg →
       postUsersHandler body freshId now st = ({ status := 400, body := .msgB msg }, st)) := by
  constructor
  · intro e he
    have hp : parseUserPayload (.obj [("name", .str ""), ("email", .str e)]) =
        .ok { name := "", email := e } := by
      show (if emailValid e
            then (Except.ok { name := "", email := e } : Except String UserPayload)
            else .error "Validation error: Invalid email at email") =
        .ok { name := "", email := e }
      rw [he]
      rfl
    unfold postUsersHandler
    rw [hp]
    rfl
  · intro body msg h
    unfold postUsersHandler
    rw [h]

/-- Witness for C4's amended claim: `a@b.co` is a valid email, so the
empty-name payload is accepted, and the all-fields-missing payload is
rejected with 400. -/
theorem user_validation_400_witness :
    postUsersHandler (.obj [("name", .str ""), ("email", .str "a@b.co")]) (some 1) 0
        { users := [], receipts := [], receiptItems := [] } =
      ({ status := 200,
         body := .userB { id := some 1, name := "", email := "a@b.co", createdAt := 0, updatedAt := 0 } },
       { users := [] ++ [{ id := some 1, name := "", email := "a@b.co", createdAt := 0, updatedAt := 0 }],
         receipts := [], receiptItems := [] }) ∧
    postUsersHandler (.obj []) (some 1) 0 { users := [], receipts := [], receiptItems := [] } =
      ({ status := 400, body := .msgB "Validation error: invalid user payload" },
       { users := [], receipts := [], receiptItems := [] }) :=
  ⟨(user_validation_400 { users := [], receipts := [], receiptItems := [] } (some 1) 0).1
      "a@b.co" (by decide),
   (user_validation_400 { users := [], receipts := [], receiptItems := [] } (some 1) 0).2
      (.obj []) "Validation error: invalid user payload" rfl⟩

/-- C10: the helper maps a URL to the label built from the pathname's last
segment — hyphens to spaces, each word's first letter capitalized — paired
with the placeholder price `0.00`; in particular
`https://example.com/store/cool-blue-widget` yields `Cool Blue Widget`. -/
theorem fetch_product_label :
    parseProductFromUrl "https://example.com/store/cool-blue-widget" =
      .ok { name := "Cool Blue Widget", price := "0.00" } ∧
    ∀ url info, parseProductFromUrl url = .ok info →
      ∃ path, urlPathname url = some path ∧
        info.name = String.mk (capitalizeChars false
          (((splitOnChar '/' path).getLastD []).map (fun c => if c == '-' then ' ' else c))) ∧
        info.price = "0.00" := by
  refine ⟨rfl, ?_⟩
  intro url info h
  unfold parseProductFromUrl at h
  cases hu : urlPathname url with
  | none =>
      rw [hu] at h
      exact absurd h (by simp)
  | some path =>
      rw [hu] at h
      dsimp only at h
      rw [Except.ok.injEq] at h
      exact ⟨path, rfl, by rw [← h], by rw [← h]⟩

/-- Witness for C10: the general mapping applied at the spec's example URL. -/
theorem fetch_product_label_witness :
    ∃ path, urlPathname "https://example.com/store/cool-blue-widget" = some path ∧
      ({ name := "Cool Blue Widget", price := "0.00" } : ProductInfo).name =
        String.mk (capitalizeChars false
          (((splitOnChar '/' path).getLastD []).map (fun c => if c == '-' then ' ' else c))) ∧
      ({ name := "Cool Blue Widget", price := "0.00" } : ProductInfo).price = "0.00" :=
  fetch_product_label.2 "https://example.com/store/cool-blue-widget"
    { name := "Cool Blue Widget", price := "0.00" } rfl

end WalmartTest
